import Mathlib

/-
Verification development for the unified logging system
(cw_rpa_unified_logger).  The definitions below are a shallow embedding of
the Python sources:

  * src/cw_rpa_unified_logger/src/loggers/discord.py   (DiscordLogger)
  * src/cw_rpa_unified_logger/src/loggers/unified.py   (UnifiedLogger)
  * src/cw_rpa_unified_logger/src/loggers/config.py    (LoggerConfig)
  * src/cw_rpa_unified_logger/src/loggers/types.py     (LoggerType)

Effects that the claims observe (HTTP posts, sleeps, transport-session
creation and closing) are made explicit as a trace of events; HTTP
responses are supplied by an oracle indexed by the attempt number.
Wall-clock time is passed in as an abstract natural number where the code
reads time.time().  Local diagnostic logging (self.logger.debug/...) is
not observable by any claim and is not traced.
-/

namespace CwRpa

/-- Numeric value of logging.DEBUG in the Python standard library. -/
def DEBUG_LEVEL : Nat := 10

/-- Numeric value of logging.INFO. -/
def INFO_LEVEL : Nat := 20

/-- Numeric value of logging.WARNING. -/
def WARNING_LEVEL : Nat := 30

/-- Numeric value of logging.ERROR. -/
def ERROR_LEVEL : Nat := 40

/-- Numeric value of logging.CRITICAL. -/
def CRITICAL_LEVEL : Nat := 50

/-- logging.getLevelName for the five canonical levels (discord.py uses it
to build embed titles). -/
def levelName (level : Nat) : String :=
  if level = DEBUG_LEVEL then "DEBUG"
  else if level = INFO_LEVEL then "INFO"
  else if level = WARNING_LEVEL then "WARNING"
  else if level = ERROR_LEVEL then "ERROR"
  else if level = CRITICAL_LEVEL then "CRITICAL"
  else "Level " ++ toString level

/-- DiscordLogger.DEFAULT_COLORS with the dictionary .get default 0x7F7F7F. -/
def colorFor (level : Nat) : Nat :=
  if level = DEBUG_LEVEL then 0x7F7F7F
  else if level = INFO_LEVEL then 0x3498DB
  else if level = WARNING_LEVEL then 0xF1C40F
  else if level = ERROR_LEVEL then 0xE74C3C
  else if level = CRITICAL_LEVEL then 0x992D22
  else 0x7F7F7F

/-- A Discord embed as built by DiscordLogger._create_embed.  The timestamp
field (datetime.now) is real wall-clock data outside the model and is
omitted; no claim observes it. -/
structure Embed where
  title : String
  description : String
  color : Nat
  deriving Repr, DecidableEq

/-- DiscordLogger._truncate_message: cap at max_embed_length = 1900,
replacing the tail with an ellipsis. -/
def truncateMessage (message : String) : String :=
  if message.length > 1900 then (message.take (1900 - 3)) ++ "..."
  else message

/-- DiscordLogger._create_embed. -/
def createEmbed (level : Nat) (message : String) : Embed :=
  { title := levelName level ++ " Log"
    description := truncateMessage message
    color := colorFor level }

/-- The immutable retry parameters set in DiscordLogger.__init__. -/
structure SinkCfg where
  maxRetries : Nat
  retryDelay : Nat
  deriving Repr, DecidableEq

/-- The values assigned in __init__: max_retries = 3, retry_delay = 1. -/
def defaultSinkCfg : SinkCfg := { maxRetries := 3, retryDelay := 1 }

/-- Mutable state of a DiscordLogger instance: the outbound message queue,
the _running flag, whether an open aiohttp session exists (true = open;
both "None" and "closed" collapse to false), whether the background batch
task was started, and the last_batch_time reading. -/
structure SinkState where
  queue : List Embed
  running : Bool
  session : Bool
  workerStarted : Bool
  lastBatchTime : Nat
  deriving Repr, DecidableEq

/-- Outcome of one HTTP POST, supplied by an oracle: either a status code
(with the optional retry_after field of a 429 JSON body) or a
network/timeout failure raised by the transport. -/
inductive HttpResp where
  | status (code : Nat) (retryAfter : Option Nat)
  | netFail
  deriving Repr, DecidableEq

/-- Observable effects of the sink, in order of occurrence. -/
inductive Ev where
  | sessionCreated
  | sessionClosed
  | posted (batch : List Embed)
  | accepted (batch : List Embed)
  | slept (duration : Nat)
  deriving Repr, DecidableEq

/-- Result of DiscordLogger._send_batch: the returned boolean, the state
after the call, and the trace of observable effects. -/
structure SendResult where
  ok : Bool
  st : SinkState
  trace : List Ev
  deriving Repr, DecidableEq

/-- DiscordLogger._send_batch(retries).  Faithful control flow:

  * empty queue: return True immediately.
  * _ensure_session creates a session when none is open.
  * the payload carries message_queue[:10]; the POST is traced as
    Ev.posted.
  * 429: sleep retry_after (default retry_delay) and recurse with
    retries+1 while retries < max_retries, else return False.
  * 502/503/504: sleep retry_delay*(retries+1) and recurse while
    retries < max_retries; with the budget exhausted control falls
    through to the raise line below and the raised error is caught by
    the generic handler, which returns False.
  * 204: drop the sent records from the queue head, reset
    last_batch_time, return True (traced as Ev.accepted).
  * any other status reaches "await response.raise_for_status()", which
    raises for every status (ClientResponseError for >= 400; for the
    rest raise_for_status returns None and awaiting None raises
    TypeError), landing in the generic handler: sleep retry_delay,
    close and discard the session, recurse while retries < max_retries,
    else return False.
  * a network/timeout failure during the POST takes the same generic
    handler path. -/
def sendBatchF (cfg : SinkCfg) (oracle : Nat → HttpResp) (now : Nat) :
    Nat → Nat → SinkState → SendResult
  | 0, _, st => { ok := false, st := st, trace := [] }
  | fuel + 1, retries, st =>
  if st.queue = [] then { ok := true, st := st, trace := [] }
  else
    let st1 : SinkState := if st.session then st else { st with session := true }
    let tr1 : List Ev := if st.session then [] else [Ev.sessionCreated]
    let batch : List Embed := st1.queue.take 10
    match oracle retries with
    | HttpResp.netFail =>
      if retries < cfg.maxRetries then
        let r := sendBatchF cfg oracle now fuel (retries + 1) { st1 with session := false }
        { ok := r.ok, st := r.st
          trace := tr1 ++ [Ev.posted batch, Ev.slept cfg.retryDelay, Ev.sessionClosed] ++ r.trace }
      else { ok := false, st := st1, trace := tr1 ++ [Ev.posted batch] }
    | HttpResp.status code retryAfter =>
      if code = 429 then
        if retries < cfg.maxRetries then
          let r := sendBatchF cfg oracle now fuel (retries + 1) st1
          { ok := r.ok, st := r.st
            trace := tr1 ++ [Ev.posted batch, Ev.slept (retryAfter.getD cfg.retryDelay)] ++ r.trace }
        else { ok := false, st := st1, trace := tr1 ++ [Ev.posted batch] }
      else if code = 502 ∨ code = 503 ∨ code = 504 then
        if retries < cfg.maxRetries then
          let r := sendBatchF cfg oracle now fuel (retries + 1) st1
          { ok := r.ok, st := r.st
            trace := tr1 ++ [Ev.posted batch, Ev.slept (cfg.retryDelay * (retries + 1))] ++ r.trace }
        else { ok := false, st := st1, trace := tr1 ++ [Ev.posted batch] }
      else if code = 204 then
        { ok := true
          st := { st1 with queue := st1.queue.drop 10, lastBatchTime := now }
          trace := tr1 ++ [Ev.posted batch, Ev.accepted batch] }
      else
        if retries < cfg.maxRetries then
          let r := sendBatchF cfg oracle now fuel (retries + 1) { st1 with session := false }
          { ok := r.ok, st := r.st
            trace := tr1 ++ [Ev.posted batch, Ev.slept cfg.retryDelay, Ev.sessionClosed] ++ r.trace }
        else { ok := false, st := st1, trace := tr1 ++ [Ev.posted batch] }

/-- DiscordLogger._send_batch(retries).  The recursion depth is bounded by
the retry budget: each recursive call increments retries and is guarded
by retries < max_retries, so max_retries + 1 units of fuel make the
recursion structural and the zero-fuel branch of sendBatchF unreachable
(the fuel decreases by exactly one per attempt while the remaining
budget does too). -/
def sendBatch (cfg : SinkCfg) (oracle : Nat → HttpResp) (now : Nat)
    (retries : Nat) (st : SinkState) : SendResult :=
  sendBatchF cfg oracle now (cfg.maxRetries + 1) retries st

/-- DiscordLogger._sync_log (and the log/debug/info/... wrappers around
it): a no-op when _running is false, otherwise append the embed to the
queue tail. -/
def syncLog (st : SinkState) (level : Nat) (message : String) : SinkState :=
  if st.running = false then st
  else { st with queue := st.queue ++ [createEmbed level message] }

/-- The batches carried by POST requests in a trace. -/
def postedBatches (tr : List Ev) : List (List Embed) :=
  tr.filterMap (fun e =>
    match e with
    | Ev.posted b => some b
    | _ => none)

/-- The records removed from the queue by successful (204) deliveries,
concatenated in delivery order. -/
def acceptedConcat (tr : List Ev) : List Embed :=
  (tr.filterMap (fun e =>
    match e with
    | Ev.accepted b => some b
    | _ => none)).flatten

/-- Whether a trace contains any network activity: an HTTP POST or the
creation of a transport session. -/
def netActivity (tr : List Ev) : Bool :=
  tr.any (fun e =>
    match e with
    | Ev.posted _ => true
    | Ev.sessionCreated => true
    | _ => false)

/-- Result of DiscordLogger.cleanup: state after the call plus the trace.
The whole body runs under a catch-all handler, so cleanup never raises;
the model is accordingly a total function. -/
structure CleanupResult where
  st : SinkState
  trace : List Ev
  deriving Repr, DecidableEq

/-- DiscordLogger.cleanup: set _running to False; if the queue is
non-empty perform exactly one final _send_batch (a failure only logs a
warning); cancel and await the batch task; close and discard the session
when one is open. -/
def cleanupRun (cfg : SinkCfg) (oracle : Nat → HttpResp) (now : Nat)
    (st : SinkState) : CleanupResult :=
  let st0 : SinkState := { st with running := false }
  let flushed : SinkState × List Ev :=
    if st0.queue = [] then (st0, [])
    else
      let r := sendBatch cfg oracle now 0 st0
      (r.st, r.trace)
  let st2 : SinkState := { flushed.1 with workerStarted := false }
  if st2.session then
    { st := { st2 with session := false }, trace := flushed.2 ++ [Ev.sessionClosed] }
  else { st := st2, trace := flushed.2 }

/-- The webhook URL format accepted by DiscordLogger._check_webhook. -/
def urlWellFormed (url : String) : Bool :=
  url.startsWith ("https://discord.com/api/webhooks/")

/-- Outcome of the validation POST performed by _check_webhook. -/
inductive WebhookCheck where
  | resp (code : Nat)
  | exc
  deriving Repr, DecidableEq

/-- DiscordLogger._check_webhook: reject a URL without the service's
expected leading format without any network activity; otherwise create a
session and POST a test payload: 204 is valid, 404 and 401 are reported
invalid, any other status is reported invalid, and an exception during
the request is caught and reported invalid. -/
def checkWebhook (url : String) (outcome : WebhookCheck) (st : SinkState) :
    Bool × SinkState :=
  if urlWellFormed url = false then (false, st)
  else
    let st1 : SinkState := { st with session := true }
    match outcome with
    | WebhookCheck.resp code => (code = 204, st1)
    | WebhookCheck.exc => (false, st1)

/-- The state built by DiscordLogger.__init__: empty queue, _running True,
no session, no batch task yet. -/
def freshSinkState : SinkState :=
  { queue := [], running := true, session := false
    workerStarted := false, lastBatchTime := 0 }

/-- DiscordLogger async initial setup: run _check_webhook; when it reports
the webhook valid, start the background batch task; otherwise set
_running to False (the sink stays disabled and the worker is never
started). -/
def initDiscord (url : String) (outcome : WebhookCheck) (st : SinkState) :
    SinkState :=
  let checked := checkWebhook url outcome st
  if checked.1 then { checked.2 with workerStarted := true }
  else { checked.2 with running := false }

/-- Interleaving of externally visible sink operations: an enqueue coming
from the Dispatcher (DiscordLogger.log) or one flush cycle in which the
background worker calls _send_batch under the lock.  Quantifying over
arbitrary cycle placements is a superset of the worker's trigger
condition (queue length, elapsed interval), so properties proved for all
runs cover the actual scheduler. -/
inductive RunEv where
  | enq (level : Nat) (message : String)
  | flushCycle (oracle : Nat → HttpResp) (now : Nat)

/-- Execute a list of run events from a state, collecting the trace. -/
def runSteps (cfg : SinkCfg) (st : SinkState) : List RunEv → SinkState × List Ev
  | [] => (st, [])
  | RunEv.enq level message :: rest =>
    runSteps cfg (syncLog st level message) rest
  | RunEv.flushCycle oracle now :: rest =>
    let r := sendBatch cfg oracle now 0 st
    let tail := runSteps cfg r.st rest
    (tail.1, r.trace ++ tail.2)

/-- The embeds a run appends to the queue, in call order (for a sink whose
_running flag is set). -/
def enqueuedEmbeds : List RunEv → List Embed
  | [] => []
  | RunEv.enq level message :: rest => createEmbed level message :: enqueuedEmbeds rest
  | RunEv.flushCycle _ _ :: rest => enqueuedEmbeds rest

/-- Modelled from the spec: the repository module message_formatter.py
(class MessageFormatter) is imported by unified.py but is not among the
provided source files.  Per the spec it "truncates and filters message
text" and is constructed from the configured max message length and the
filter patterns.  A compiled filter pattern is modelled as its match
function on strings. -/
structure MessageFormatter where
  maxLength : Nat
  filterPatterns : List (String → Bool)

/-- Modelled from the spec: MessageFormatter.process_message, used by
UnifiedLogger._log_to_all.  "length truncation + filter-pattern rejection
— if a filter pattern matches, the message is suppressed entirely"
(returning None, which _log_to_all checks with "if processed is None"). -/
def MessageFormatter.processMessage (f : MessageFormatter) (message : String) :
    Option String :=
  if f.filterPatterns.any (fun p => p message) then none
  else if message.length > f.maxLength then some (message.take f.maxLength)
  else some message

/-- A registered sink as seen by the Dispatcher loop: its registry name
and whether its log call raises for a given record.  (DiscordLogger's log
never raises: _sync_log catches internally.) -/
structure Sink where
  name : String
  failsOn : Nat → String → Bool

/-- One sink.log call, in the exception monad: an error value models a
raised exception. -/
def Sink.logCall (s : Sink) (level : Nat) (message : String) : Except String Unit :=
  if s.failsOn level message then Except.error s.name else Except.ok ()

/-- What the Dispatcher fan-out loop does with one sink: deliver, or
catch the sink's raised failure and log it locally. -/
inductive DispatchEv where
  | delivered (sinkName : String) (level : Nat) (message : String)
  | caughtFailure (sinkName : String)
  deriving Repr, DecidableEq

/-- The for-loop of UnifiedLogger._log_to_all over self.loggers.items()
(dict preserves registration = insertion order).  Each sink call sits in
its own try/except: a raised failure is caught, printed locally, and the
loop continues.  The Except wrapper is where an uncaught exception would
surface to the caller. -/
def fanOut (sinks : List Sink) (level : Nat) (message : String) :
    Except String (List DispatchEv) :=
  match sinks with
  | [] => Except.ok []
  | s :: rest =>
    let ev : DispatchEv :=
      match s.logCall level message with
      | Except.ok _ => DispatchEv.delivered s.name level message
      | Except.error _ => DispatchEv.caughtFailure s.name
    match fanOut rest level message with
    | Except.ok evs => Except.ok (ev :: evs)
    | Except.error e => Except.error e

/-- The exception text appended to the processed message when exc_info is
supplied to _log_to_all (the traceback formatting itself is an external
collaborator, modelled as the resulting text). -/
def withExcText (processed : String) (excText : Option String) : String :=
  match excText with
  | none => processed
  | some t => processed ++ "\n" ++ t

/-- UnifiedLogger._log_to_all: run the formatter; when it suppresses the
message return immediately with no sink invoked; otherwise append any
exception text and fan the record out to every registered sink. -/
def logToAll (f : MessageFormatter) (sinks : List Sink) (level : Nat)
    (message : String) (excText : Option String) :
    Except String (List DispatchEv) :=
  match f.processMessage message with
  | none => Except.ok []
  | some processed => fanOut sinks level (withExcText processed excText)

/-- The Dispatcher (UnifiedLogger): the formatter built from the config
and the registry of sinks in registration order. -/
structure Dispatcher where
  formatter : MessageFormatter
  sinks : List Sink

/-- UnifiedLogger.debug. -/
def Dispatcher.debugCall (d : Dispatcher) (message : String)
    (excText : Option String) : Except String (List DispatchEv) :=
  logToAll d.formatter d.sinks DEBUG_LEVEL message excText

/-- UnifiedLogger.info. -/
def Dispatcher.infoCall (d : Dispatcher) (message : String)
    (excText : Option String) : Except String (List DispatchEv) :=
  logToAll d.formatter d.sinks INFO_LEVEL message excText

/-- UnifiedLogger.warning. -/
def Dispatcher.warningCall (d : Dispatcher) (message : String)
    (excText : Option String) : Except String (List DispatchEv) :=
  logToAll d.formatter d.sinks WARNING_LEVEL message excText

/-- UnifiedLogger.error. -/
def Dispatcher.errorCall (d : Dispatcher) (message : String)
    (excText : Option String) : Except String (List DispatchEv) :=
  logToAll d.formatter d.sinks ERROR_LEVEL message excText

/-- UnifiedLogger.critical. -/
def Dispatcher.criticalCall (d : Dispatcher) (message : String)
    (excText : Option String) : Except String (List DispatchEv) :=
  logToAll d.formatter d.sinks CRITICAL_LEVEL message excText

/-- UnifiedLogger.exception: logs at ERROR with the current exception
text attached. -/
def Dispatcher.exceptionCall (d : Dispatcher) (message : String)
    (excText : Option String) : Except String (List DispatchEv) :=
  logToAll d.formatter d.sinks ERROR_LEVEL message excText

/-- The event list fanOut produces: one entry per registered sink, in
registration order. -/
def fanOutEvents (sinks : List Sink) (level : Nat) (message : String) :
    List DispatchEv :=
  sinks.map (fun s =>
    if s.failsOn level message then DispatchEv.caughtFailure s.name
    else DispatchEv.delivered s.name level message)

/-- The sink name carried by a dispatch event. -/
def evSinkName : DispatchEv → String
  | DispatchEv.delivered n _ _ => n
  | DispatchEv.caughtFailure n => n

/-- types.py LoggerType: the supported logger (sink) kinds. -/
inductive LoggerType where
  | localSink
  | asioSink
  | discordSink
  deriving Repr, DecidableEq

/-- LoggerType.all_types() as an ordered list (Python returns a set; only
membership and emptiness are ever used). -/
def allLoggerTypes : List LoggerType :=
  [LoggerType.localSink, LoggerType.asioSink, LoggerType.discordSink]

/-- Enum lookup LoggerType[name] guarded by membership in
LoggerType._member_names_ (the guard makes the lookup total: unknown
names yield none and are filtered out by the comprehensions). -/
def loggerTypeOfName (s : String) : Option LoggerType :=
  if s = "LOCAL" then some LoggerType.localSink
  else if s = "ASIO" then some LoggerType.asioSink
  else if s = "DISCORD" then some LoggerType.discordSink
  else none

/-- An element of an iterable passed as the enabled-logger collection: a
string, or any non-string value (for example a LoggerType enum member) —
the comprehension in from_input keeps only strings. -/
inductive LoggerInputElem where
  | str (s : String)
  | nonStr
  deriving Repr, DecidableEq

/-- The argument shapes LoggerType.from_input accepts: None, a single
comma-separated string, or an iterable of elements. -/
inductive LoggerInput where
  | noneV
  | strV (s : String)
  | collV (l : List LoggerInputElem)
  deriving Repr, DecidableEq

/-- Python str.upper, modelled characterwise (Lean's String.toUpper is
an iterator loop that the kernel cannot reduce; on the ASCII logger
names the two agree). -/
def pyUpper (s : String) : String := String.mk (s.data.map Char.toUpper)

/-- Python str.strip: remove leading and trailing whitespace. -/
def pyStrip (s : String) : String :=
  String.mk
    (((s.data.dropWhile (fun c => c.isWhitespace)).reverse.dropWhile
      (fun c => c.isWhitespace)).reverse)

/-- Python str.split(',') as used by from_input. -/
def pySplitComma (s : String) : List String :=
  (s.data.splitOn ',').map (fun cs => String.mk cs)

/-- The normalization t.strip().upper() applied to each candidate name. -/
def normalizeName (s : String) : String := pyUpper (pyStrip s)

/-- LoggerType.from_input: None means every type; a string is split on
commas, each piece stripped and upper-cased, and unrecognized pieces are
silently dropped; an iterable keeps only its string elements, with the
same normalization and the same silent dropping.  Python builds a set;
the model keeps first-occurrence order and removes duplicates. -/
def fromInput : LoggerInput → List LoggerType
  | LoggerInput.noneV => allLoggerTypes
  | LoggerInput.strV s =>
    ((pySplitComma s).filterMap (fun t => loggerTypeOfName (normalizeName t))).dedup
  | LoggerInput.collV l =>
    (l.filterMap (fun e =>
      match e with
      | LoggerInputElem.str s => loggerTypeOfName (normalizeName s)
      | LoggerInputElem.nonStr => none)).dedup

/-- A filter pattern entry of the configuration.  Whether the string
compiles as a regular expression is decided by the standard-library
engine (an external collaborator) and is modelled as a flag. -/
structure RegexLit where
  raw : String
  compiles : Bool
  deriving Repr, DecidableEq

/-- config.py LoggerConfig fields.  log_dir is a Path or None (only None
is falsy for a Path); discord_webhook_url is a string or None (falsy when
None or empty); asio_config is never validated and is omitted. -/
structure LoggerConfig where
  enabledLoggers : List LoggerType
  loggerName : String
  logLevel : Int
  maxMessageLength : Int
  terminalLevel : Int
  enableTerminalOutput : Bool
  logDir : Option String
  logFileName : String
  discordWebhookUrl : Option String
  filterPatterns : List RegexLit
  enableDebugMode : Bool
  deriving Repr, DecidableEq

/-- Python truthiness of an optional string: None and the empty string
are falsy. -/
def optStrFalsy : Option String → Bool
  | none => true
  | some s => s = ""

/-- The five canonical logging levels accepted by _validate_config. -/
def validLevels : List Int := [10, 20, 30, 40, 50]

/-- LoggerConfig._validate_config.  The checks run in source order and
the method mutates self when terminal output is enabled with a terminal
level below the base level (it raises the terminal level instead of
rejecting), so the result is the possibly-adjusted configuration paired
with the first failure message, if any. -/
def validateConfig (c : LoggerConfig) : LoggerConfig × Option String :=
  if c.enabledLoggers = [] then
    (c, some ("At least one logger must be enabled"))
  else if (allLoggerTypes.any (fun t => c.enabledLoggers.contains t)) = false then
    (c, some ("Invalid logger type specified"))
  else if (validLevels.contains c.logLevel) = false then
    (c, some ("Invalid log level"))
  else if (validLevels.contains c.terminalLevel) = false then
    (c, some ("Invalid terminal log level"))
  else
    let c1 : LoggerConfig :=
      if c.enableTerminalOutput ∧ c.terminalLevel < c.logLevel then
        { c with terminalLevel := c.logLevel }
      else c
    if c1.maxMessageLength ≤ 0 then
      (c1, some ("max_message_length must be positive"))
    else if c1.enabledLoggers.contains LoggerType.discordSink ∧ optStrFalsy c1.discordWebhookUrl then
      (c1, some ("Discord logging enabled but no webhook URL provided"))
    else if c1.enabledLoggers.contains LoggerType.localSink ∧ c1.logDir = none then
      (c1, some ("Local logging enabled but no log directory provided"))
    else if c1.enabledLoggers.contains LoggerType.localSink ∧ c1.logFileName = "" then
      (c1, some ("Local logging enabled but no log file name provided"))
    else if (c1.filterPatterns.all (fun p => p.compiles)) = false then
      (c1, some ("Invalid filter pattern"))
    else (c1, none)

/-- Dataclass construction of LoggerConfig followed by __post_init__:
the enabled_loggers argument is normalized through LoggerType.from_input
(whose guarded lookups never raise, so the KeyError wrapper is dead
code); an empty result raises; then _validate_config runs. -/
def mkLoggerConfig (rawEnabled : LoggerInput) (c : LoggerConfig) :
    Except String LoggerConfig :=
  let en := fromInput rawEnabled
  if en = [] then Except.error ("At least one logger must be enabled")
  else
    match validateConfig { c with enabledLoggers := en } with
    | (c1, none) => Except.ok c1
    | (_, some e) => Except.error e

/-- The dataclass field defaults of LoggerConfig (enabled_loggers aside,
which mkLoggerConfig receives separately): name "unified_logger", level
INFO, max length 10000, terminal WARNING and disabled, the package log
directory with file app.log, no webhook URL, no filter patterns. -/
def defaultsLoggerConfig : LoggerConfig :=
  { enabledLoggers := [LoggerType.localSink]
    loggerName := "unified_logger"
    logLevel := 20
    maxMessageLength := 10000
    terminalLevel := 30
    enableTerminalOutput := false
    logDir := some ("logs")
    logFileName := "app.log"
    discordWebhookUrl := none
    filterPatterns := []
    enableDebugMode := false }

/-- A keyword argument passed to LoggerConfig.update: one constructor per
real attribute, plus a name that is not an attribute (rejected by the
hasattr check). -/
inductive ConfigKV where
  | enabledLoggersKV (v : List LoggerType)
  | loggerNameKV (v : String)
  | logLevelKV (v : Int)
  | maxMessageLengthKV (v : Int)
  | terminalLevelKV (v : Int)
  | enableTerminalOutputKV (v : Bool)
  | logDirKV (v : Option String)
  | logFileNameKV (v : String)
  | discordWebhookUrlKV (v : Option String)
  | filterPatternsKV (v : List RegexLit)
  | enableDebugModeKV (v : Bool)
  | unknownKV (attrName : String)
  deriving Repr, DecidableEq

/-- Whether hasattr(self, key) holds for the keyword. -/
def ConfigKV.isKnown : ConfigKV → Bool
  | ConfigKV.unknownKV _ => false
  | _ => true

/-- setattr(self, key, value) for one keyword. -/
def setAttr (c : LoggerConfig) : ConfigKV → LoggerConfig
  | ConfigKV.enabledLoggersKV v => { c with enabledLoggers := v }
  | ConfigKV.loggerNameKV v => { c with loggerName := v }
  | ConfigKV.logLevelKV v => { c with logLevel := v }
  | ConfigKV.maxMessageLengthKV v => { c with maxMessageLength := v }
  | ConfigKV.terminalLevelKV v => { c with terminalLevel := v }
  | ConfigKV.enableTerminalOutputKV v => { c with enableTerminalOutput := v }
  | ConfigKV.logDirKV v => { c with logDir := v }
  | ConfigKV.logFileNameKV v => { c with logFileName := v }
  | ConfigKV.discordWebhookUrlKV v => { c with discordWebhookUrl := v }
  | ConfigKV.filterPatternsKV v => { c with filterPatterns := v }
  | ConfigKV.enableDebugModeKV v => { c with enableDebugMode := v }
  | ConfigKV.unknownKV _ => c

/-- LoggerConfig.update(**kwargs): walk the keywords in order, assigning
each known attribute as it is reached; the first unknown attribute name
raises with every earlier assignment already applied (the object is
mutated in place and there is no rollback); after the loop
_validate_config runs on the merged state.  The result is the
configuration as the object is left, paired with the raised message, if
any. -/
def updateConfig (c : LoggerConfig) : List ConfigKV → LoggerConfig × Option String
  | [] => validateConfig c
  | kv :: rest =>
    if kv.isKnown then updateConfig (setAttr c kv) rest
    else (c, some ("Invalid configuration attribute"))

/-
Concrete fixtures used by witnesses and counterexamples.
-/

/-- Twelve distinct embeds, as produced by twelve INFO log calls. -/
def q12 : List Embed := (List.range 12).map (fun n => createEmbed 20 (toString n))

/-- A running sink with twelve records queued and no open session. -/
def st12 : SinkState :=
  { queue := q12, running := true, session := false
    workerStarted := true, lastBatchTime := 0 }

/-- An endpoint that always accepts (HTTP 204). -/
def oracleAll204 : Nat → HttpResp := fun _ => HttpResp.status 204 none

/-- An endpoint that always rate-limits with retry_after = 2. -/
def oracleAll429 : Nat → HttpResp := fun _ => HttpResp.status 429 (some 2)

/-- An endpoint that always answers 400 Bad Request. -/
def oracleAll400 : Nat → HttpResp := fun _ => HttpResp.status 400 none

/-- The sleep durations appearing in a trace, in order. -/
def sleptDurations (tr : List Ev) : List Nat :=
  tr.filterMap (fun e =>
    match e with
    | Ev.slept d => some d
    | _ => none)

/-- A running sink with a single queued record. -/
def stOne : SinkState :=
  { queue := [createEmbed 20 "x"], running := true, session := false
    workerStarted := true, lastBatchTime := 0 }

/-- A sink just after successful async setup: empty queue, running, the
background worker started. -/
def startedSinkState : SinkState :=
  { queue := [], running := true, session := false
    workerStarted := true, lastBatchTime := 0 }

/-- A formatter with no filter patterns and a 100-character cap. -/
def fmtPlain : MessageFormatter := { maxLength := 100, filterPatterns := [] }

/-- A formatter with one filter pattern, matching exactly "drop me". -/
def fmtDrop : MessageFormatter :=
  { maxLength := 100, filterPatterns := [fun m => m == "drop me"] }

/-- Three registered sinks in registration order; the middle one raises
on every log call. -/
def sinksW : List Sink :=
  [ { name := "first", failsOn := fun _ _ => false }
  , { name := "failing", failsOn := fun _ _ => true }
  , { name := "last", failsOn := fun _ _ => false } ]

/-- C1: a single delivery attempt posts at most the first 10 queued
records as one batch, and on a 204 success exactly those records are
removed from the head of the queue, leaving any remainder queued; with
12 records enqueued one flush cycle sends exactly 10 and leaves 2. -/
theorem sendBatch_success_takes_ten (st : SinkState) (oracle : Nat → HttpResp)
    (now : Nat) (ra : Option Nat) (h : oracle 0 = HttpResp.status 204 ra) :
    (sendBatch defaultSinkCfg oracle now 0 st).ok = true ∧
    (sendBatch defaultSinkCfg oracle now 0 st).st.queue = st.queue.drop 10 ∧
    postedBatches (sendBatch defaultSinkCfg oracle now 0 st).trace =
      (if st.queue = [] then [] else [st.queue.take 10]) ∧
    (st.queue.length = 12 →
      (sendBatch defaultSinkCfg oracle now 0 st).st.queue.length = 2 ∧
      (st.queue.take 10).length = 10) := by
  rcases eq_or_ne st.queue [] with hq | hq
  · simp [sendBatch, sendBatchF, defaultSinkCfg, hq, postedBatches]
  · by_cases hs : st.session = true
    · simp [sendBatch, sendBatchF, defaultSinkCfg, hq, hs, h, postedBatches]
      intro h12
      simp [h12]
    · simp [sendBatch, sendBatchF, defaultSinkCfg, hq, hs, h, postedBatches]
      intro h12
      simp [h12]

/-- Witness for C1 at the concrete 12-record state: the flush succeeds,
exactly the first 10 records are posted, and 2 remain queued. -/
theorem sendBatch_success_takes_ten_witness :
    (sendBatch defaultSinkCfg oracleAll204 7 0 st12).ok = true ∧
    (sendBatch defaultSinkCfg oracleAll204 7 0 st12).st.queue = st12.queue.drop 10 ∧
    postedBatches (sendBatch defaultSinkCfg oracleAll204 7 0 st12).trace =
      (if st12.queue = [] then [] else [st12.queue.take 10]) ∧
    (st12.queue.length = 12 →
      (sendBatch defaultSinkCfg oracleAll204 7 0 st12).st.queue.length = 2 ∧
      (st12.queue.take 10).length = 10) :=
  sendBatch_success_takes_ten st12 oracleAll204 7 none rfl

/-- C2 (amended): on 429 the sink sleeps the server-supplied retry_after
value (the base retry delay when absent) and resends the same queue
prefix, each resend counted against the max-retry budget; once the
budget is exhausted the attempt returns failure with the queue
unchanged — the attempted prefix is NOT dropped and a later flush cycle
sends it again. -/
theorem sendBatch_429_budget (st : SinkState) (ra now now2 : Nat)
    (hq : st.queue ≠ []) :
    (sendBatch defaultSinkCfg (fun _ => HttpResp.status 429 (some ra)) now 0 st).ok = false ∧
    (sendBatch defaultSinkCfg (fun _ => HttpResp.status 429 (some ra)) now 0 st).st.queue = st.queue ∧
    postedBatches (sendBatch defaultSinkCfg (fun _ => HttpResp.status 429 (some ra)) now 0 st).trace =
      [st.queue.take 10, st.queue.take 10, st.queue.take 10, st.queue.take 10] ∧
    sleptDurations (sendBatch defaultSinkCfg (fun _ => HttpResp.status 429 (some ra)) now 0 st).trace =
      [ra, ra, ra] ∧
    sleptDurations (sendBatch defaultSinkCfg (fun _ => HttpResp.status 429 none) now 0 st).trace =
      [defaultSinkCfg.retryDelay, defaultSinkCfg.retryDelay, defaultSinkCfg.retryDelay] ∧
    postedBatches (sendBatch defaultSinkCfg oracleAll204 now2 0
      (sendBatch defaultSinkCfg (fun _ => HttpResp.status 429 (some ra)) now 0 st).st).trace =
      [st.queue.take 10] := by
  by_cases hs : st.session = true <;>
    simp [sendBatch, sendBatchF, defaultSinkCfg, hq, hs, postedBatches, sleptDurations,
      oracleAll204]

/-- Witness for C2 at the concrete 12-record state with retry_after = 2. -/
theorem sendBatch_429_budget_witness :
    (sendBatch defaultSinkCfg (fun _ => HttpResp.status 429 (some 2)) 0 0 st12).ok = false ∧
    (sendBatch defaultSinkCfg (fun _ => HttpResp.status 429 (some 2)) 0 0 st12).st.queue = st12.queue ∧
    postedBatches (sendBatch defaultSinkCfg (fun _ => HttpResp.status 429 (some 2)) 0 0 st12).trace =
      [st12.queue.take 10, st12.queue.take 10, st12.queue.take 10, st12.queue.take 10] ∧
    sleptDurations (sendBatch defaultSinkCfg (fun _ => HttpResp.status 429 (some 2)) 0 0 st12).trace =
      [2, 2, 2] ∧
    sleptDurations (sendBatch defaultSinkCfg (fun _ => HttpResp.status 429 none) 0 0 st12).trace =
      [defaultSinkCfg.retryDelay, defaultSinkCfg.retryDelay, defaultSinkCfg.retryDelay] ∧
    postedBatches (sendBatch defaultSinkCfg oracleAll204 5 0
      (sendBatch defaultSinkCfg (fun _ => HttpResp.status 429 (some 2)) 0 0 st12).st).trace =
      [st12.queue.take 10] :=
  sendBatch_429_budget st12 2 0 5 (by decide)

/-- Counterexample for C2 as stated: after the 429 retry budget is
exhausted the attempted prefix is not dropped (the queue still equals
the original 12 records, not the queue with its head removed) and the
very same prefix is posted again by the next flush cycle. -/
theorem sendBatch_429_drop_counterexample :
    (sendBatch defaultSinkCfg oracleAll429 0 0 st12).st.queue = q12 ∧
    q12 ≠ q12.drop 10 ∧
    Ev.posted (q12.take 10) ∈
      (sendBatch defaultSinkCfg oracleAll204 5 0
        (sendBatch defaultSinkCfg oracleAll429 0 0 st12).st).trace := by
  decide

/-- C3 (amended): a status that is neither 204 nor 429 nor 502/503/504
raises inside the response handling and the raised error is caught by
the generic exception handler, which RETRIES: the sink sleeps the base
retry delay and resends the same prefix (discarding and recreating the
session) up to the max-retry budget, and on exhaustion the attempt
fails with the batch still queued — the batch is not dropped from the
queue. -/
theorem sendBatch_other_status_retries (st : SinkState) (code now : Nat)
    (hq : st.queue ≠ []) (h429 : code ≠ 429) (h502 : code ≠ 502)
    (h503 : code ≠ 503) (h504 : code ≠ 504) (h204 : code ≠ 204) :
    (sendBatch defaultSinkCfg (fun _ => HttpResp.status code none) now 0 st).ok = false ∧
    (sendBatch defaultSinkCfg (fun _ => HttpResp.status code none) now 0 st).st.queue = st.queue ∧
    postedBatches (sendBatch defaultSinkCfg (fun _ => HttpResp.status code none) now 0 st).trace =
      [st.queue.take 10, st.queue.take 10, st.queue.take 10, st.queue.take 10] ∧
    sleptDurations (sendBatch defaultSinkCfg (fun _ => HttpResp.status code none) now 0 st).trace =
      [defaultSinkCfg.retryDelay, defaultSinkCfg.retryDelay, defaultSinkCfg.retryDelay] := by
  by_cases hs : st.session = true <;>
    simp [sendBatch, sendBatchF, defaultSinkCfg, hq, hs, h429, h502, h503, h504, h204,
      postedBatches, sleptDurations]

/-- Witness for C3 (amended) at status 400 on the 12-record state. -/
theorem sendBatch_other_status_retries_witness :
    (sendBatch defaultSinkCfg (fun _ => HttpResp.status 400 none) 0 0 st12).ok = false ∧
    (sendBatch defaultSinkCfg (fun _ => HttpResp.status 400 none) 0 0 st12).st.queue = st12.queue ∧
    postedBatches (sendBatch defaultSinkCfg (fun _ => HttpResp.status 400 none) 0 0 st12).trace =
      [st12.queue.take 10, st12.queue.take 10, st12.queue.take 10, st12.queue.take 10] ∧
    sleptDurations (sendBatch defaultSinkCfg (fun _ => HttpResp.status 400 none) 0 0 st12).trace =
      [defaultSinkCfg.retryDelay, defaultSinkCfg.retryDelay, defaultSinkCfg.retryDelay] :=
  sendBatch_other_status_retries st12 400 0 (by decide) (by decide) (by decide)
    (by decide) (by decide) (by decide)

/-- Counterexample for C3 as stated: a 400 response is not treated as
fatal-no-retry — the attempt is retried (four POSTs of the batch occur,
not one) and the batch is not dropped (the queue is unchanged). -/
theorem sendBatch_400_counterexample :
    (postedBatches (sendBatch defaultSinkCfg oracleAll400 0 0 st12).trace).length = 4 ∧
    (sendBatch defaultSinkCfg oracleAll400 0 0 st12).st.queue = q12 ∧
    (sendBatch defaultSinkCfg oracleAll400 0 0 st12).ok = false := by
  decide

/-- Helper: cleanup always leaves the transport session closed. -/
theorem cleanupRun_session_closed (cfg : SinkCfg) (oracle : Nat → HttpResp)
    (now : Nat) (st : SinkState) :
    (cleanupRun cfg oracle now st).st.session = false := by
  unfold cleanupRun
  dsimp only
  split <;> (split <;> simp_all)

/-- Helper: cleanup on a drained sink whose session is already closed
produces an empty trace (nothing to flush, nothing to close). -/
theorem cleanupRun_noop (cfg : SinkCfg) (oracle : Nat → HttpResp) (now : Nat)
    (st : SinkState) (hq : st.queue = []) (hs : st.session = false) :
    (cleanupRun cfg oracle now st).trace = [] := by
  simp [cleanupRun, hq, hs]

/-- C7 (amended): cleanup never raises (its body runs under a catch-all
handler, so the model is a total function), and a second cleanup call
performs no network activity provided the first call left the outbound
queue empty; when records remain queued after the first call the second
call performs another network flush. -/
theorem cleanupRun_idempotent_when_drained (cfg : SinkCfg)
    (oracle oracle2 : Nat → HttpResp) (now now2 : Nat) (st : SinkState)
    (h : (cleanupRun cfg oracle now st).st.queue = []) :
    netActivity (cleanupRun cfg oracle2 now2 (cleanupRun cfg oracle now st).st).trace = false := by
  have hs := cleanupRun_session_closed cfg oracle now st
  rw [cleanupRun_noop cfg oracle2 now2 (cleanupRun cfg oracle now st).st h hs]
  rfl

/-- Witness for C7 (amended): with one record queued the first cleanup
drains the queue, and the second call performs no network activity. -/
theorem cleanupRun_idempotent_when_drained_witness :
    netActivity (cleanupRun defaultSinkCfg oracleAll204 1
      (cleanupRun defaultSinkCfg oracleAll204 0 stOne).st).trace = false :=
  cleanupRun_idempotent_when_drained defaultSinkCfg oracleAll204 oracleAll204 0 1 stOne
    (by decide)

/-- Counterexample for C7 as stated: with 12 records queued the first
cleanup's single flush drains only 10, so the second cleanup call finds
a non-empty queue and performs network activity (it creates a fresh
session and posts the remaining records). -/
theorem cleanupRun_second_call_networks :
    (cleanupRun defaultSinkCfg oracleAll204 0 st12).st.queue ≠ [] ∧
    netActivity (cleanupRun defaultSinkCfg oracleAll204 1
      (cleanupRun defaultSinkCfg oracleAll204 0 st12).st).trace = true := by
  decide

/-- Helper: the fan-out loop never lets a sink failure escape — it always
returns normally with one event per registered sink, in order. -/
theorem fanOut_eq_ok (sinks : List Sink) (level : Nat) (message : String) :
    fanOut sinks level message = Except.ok (fanOutEvents sinks level message) := by
  induction sinks with
  | nil => rfl
  | cons s rest ih =>
    by_cases hf : s.failsOn level message = true <;>
      simp [fanOut, fanOutEvents, Sink.logCall, hf, ih]

/-- Helper: the webhook-validation request leaves the worker flag, the
running flag and the queue untouched (it only opens a session). -/
theorem checkWebhook_state (url : String) (oc : WebhookCheck) (st : SinkState) :
    (checkWebhook url oc st).2.workerStarted = st.workerStarted ∧
    (checkWebhook url oc st).2.running = st.running ∧
    (checkWebhook url oc st).2.queue = st.queue := by
  by_cases hu : urlWellFormed url = false <;> cases oc <;> simp [checkWebhook, hu]

/-- C4: for a non-suppressed message the dispatcher's fan-out returns
normally (no sink failure propagates), produces exactly one event per
registered sink in registration order (a failing sink's exception is
caught and recorded, every remaining sink still receives the record),
and the event list names the sinks exactly in registration order.  The
public methods debug/info/warning/error/critical/exception are this
function applied at a fixed level. -/
theorem dispatcher_fanout_isolated (f : MessageFormatter) (sinks : List Sink)
    (level : Nat) (message : String) (excText : Option String) (processed : String)
    (h : f.processMessage message = some processed) :
    logToAll f sinks level message excText =
      Except.ok (fanOutEvents sinks level (withExcText processed excText)) ∧
    (fanOutEvents sinks level (withExcText processed excText)).map evSinkName =
      sinks.map Sink.name := by
  constructor
  · simp [logToAll, h, fanOut_eq_ok]
  · induction sinks with
    | nil => rfl
    | cons s rest ih =>
      by_cases hf : s.failsOn level (withExcText processed excText) = true <;>
        simp [fanOutEvents, evSinkName, hf] at ih ⊢ <;> exact ih

/-- Witness for C4: three concrete sinks, the middle one raising; the
dispatch returns normally and every sink appears in order. -/
theorem dispatcher_fanout_isolated_witness :
    logToAll fmtPlain sinksW 20 "hello" none =
      Except.ok (fanOutEvents sinksW 20 (withExcText "hello" none)) ∧
    (fanOutEvents sinksW 20 (withExcText "hello" none)).map evSinkName =
      sinksW.map Sink.name :=
  dispatcher_fanout_isolated fmtPlain sinksW 20 "hello" none "hello" rfl

/-- C10: a message matched by a configured filter pattern is suppressed
entirely — the dispatcher invokes no sink (the event list is empty) and
the call returns normally to the caller. -/
theorem filter_suppression (f : MessageFormatter) (sinks : List Sink)
    (level : Nat) (message : String) (excText : Option String)
    (h : f.filterPatterns.any (fun p => p message) = true) :
    logToAll f sinks level message excText = Except.ok [] := by
  simp [logToAll, MessageFormatter.processMessage, h]

/-- Witness for C10 at a concrete matching pattern. -/
theorem filter_suppression_witness :
    logToAll fmtDrop sinksW 20 "drop me" none = Except.ok [] :=
  filter_suppression fmtDrop sinksW 20 "drop me" none rfl

/-- C5: when the validation POST of the webhook sink's async setup
answers 404 or 401 — or the URL lacks the expected service leading
format — the background worker is never started and the sink is
permanently disabled: _running is false, every subsequent log call is a
silent no-op leaving the state (in particular the outbound queue)
unchanged, and a stopped webhook sink (whose log never raises) does not
prevent any other registered sink from receiving records. -/
theorem discord_fatal_validation (url : String) (oc : WebhookCheck)
    (h : urlWellFormed url = false ∨ oc = WebhookCheck.resp 404 ∨
      oc = WebhookCheck.resp 401) :
    (initDiscord url oc freshSinkState).workerStarted = false ∧
    (initDiscord url oc freshSinkState).running = false ∧
    (∀ (level : Nat) (message : String),
      syncLog (initDiscord url oc freshSinkState) level message =
        initDiscord url oc freshSinkState) ∧
    (∀ (others : List Sink) (level : Nat) (message : String),
      fanOut ({ name := "discord", failsOn := fun _ _ => false } :: others) level message =
        Except.ok (DispatchEv.delivered "discord" level message ::
          fanOutEvents others level message)) := by
  have hvalid : (checkWebhook url oc freshSinkState).1 = false := by
    rcases h with h | h | h
    · simp [checkWebhook, h]
    · subst h
      by_cases hu : urlWellFormed url = false <;> simp [checkWebhook, hu]
    · subst h
      by_cases hu : urlWellFormed url = false <;> simp [checkWebhook, hu]
  obtain ⟨hw, hr, hqk⟩ := checkWebhook_state url oc freshSinkState
  refine ⟨?_, ?_, ?_, ?_⟩
  · simp [initDiscord, hvalid]
    rw [hw]
    rfl
  · simp [initDiscord, hvalid]
  · intro level message
    simp [syncLog, initDiscord, hvalid]
  · intro others level message
    have hrest := fanOut_eq_ok others level message
    simp [fanOut, fanOutEvents, Sink.logCall, hrest]

/-- Witness for C5: a well-formed URL answered with 404 leaves the sink
stopped and logging on it a no-op, while fan-out to others proceeds. -/
theorem discord_fatal_validation_witness :
    (initDiscord "https://discord.com/api/webhooks/1/x" (WebhookCheck.resp 404)
      freshSinkState).workerStarted = false ∧
    (initDiscord "https://discord.com/api/webhooks/1/x" (WebhookCheck.resp 404)
      freshSinkState).running = false ∧
    (∀ (level : Nat) (message : String),
      syncLog (initDiscord "https://discord.com/api/webhooks/1/x" (WebhookCheck.resp 404)
          freshSinkState) level message =
        initDiscord "https://discord.com/api/webhooks/1/x" (WebhookCheck.resp 404)
          freshSinkState) ∧
    (∀ (others : List Sink) (level : Nat) (message : String),
      fanOut ({ name := "discord", failsOn := fun _ _ => false } :: others) level message =
        Except.ok (DispatchEv.delivered "discord" level message ::
          fanOutEvents others level message)) :=
  discord_fatal_validation "https://discord.com/api/webhooks/1/x" (WebhookCheck.resp 404)
    (Or.inr (Or.inl rfl))

/-- Counterexample for C6 as stated: an enabled-sink input containing
the unknown name "bogus" alongside "local" does NOT raise — from_input
silently drops the unrecognized name and construction succeeds. -/
theorem config_unknown_name_counterexample :
    (mkLoggerConfig (LoggerInput.collV
      [LoggerInputElem.str ("local"), LoggerInputElem.str ("bogus")])
      defaultsLoggerConfig).toOption = some defaultsLoggerConfig := by
  decide

/-- C6 (amended): construction raises whenever the set of recognized
sink names obtained from the input is empty — in particular an empty
enabled-sink set always raises; names outside the known set are
silently discarded rather than rejected, so an unknown name causes the
error only when no known name accompanies it. -/
theorem config_empty_enabled_raises (raw : LoggerInput) (c : LoggerConfig)
    (h : fromInput raw = []) :
    mkLoggerConfig raw c = Except.error ("At least one logger must be enabled") := by
  simp [mkLoggerConfig, h]

/-- Witness for C6 (amended) at the empty enabled-sink collection. -/
theorem config_empty_enabled_raises_witness :
    mkLoggerConfig (LoggerInput.collV []) defaultsLoggerConfig =
      Except.error ("At least one logger must be enabled") :=
  config_empty_enabled_raises (LoggerInput.collV []) defaultsLoggerConfig (by decide)

/-- Counterexample for C9 as stated: a failing update call does NOT
leave the configuration exactly as it was.  Setting max_message_length
to -1 raises from re-validation, yet the assignment is already applied;
likewise, a valid assignment followed by an unknown attribute name
raises, with the earlier assignment persisting. -/
theorem config_update_partial_counterexample :
    (updateConfig defaultsLoggerConfig [ConfigKV.maxMessageLengthKV (-1)]).2.isSome = true ∧
    (updateConfig defaultsLoggerConfig [ConfigKV.maxMessageLengthKV (-1)]).1.maxMessageLength ≠
      defaultsLoggerConfig.maxMessageLength ∧
    (updateConfig defaultsLoggerConfig
      [ConfigKV.logLevelKV 10, ConfigKV.unknownKV ("bogus")]).2.isSome = true ∧
    (updateConfig defaultsLoggerConfig
      [ConfigKV.logLevelKV 10, ConfigKV.unknownKV ("bogus")]).1.logLevel ≠
      defaultsLoggerConfig.logLevel := by
  decide

/-- C9 (amended): update walks the keyword arguments in order.  When all
name known attributes it assigns every one of them and hands the merged
state to full re-validation, returning its outcome (so on success every
given attribute is set, possibly with the terminal level re-clamped,
and validation has passed).  Otherwise it raises at the first unknown
name with exactly the attributes named before it already assigned — the
update can be partially applied; there is no rollback on error. -/
theorem updateConfig_spec (c : LoggerConfig) (kvs : List ConfigKV) :
    updateConfig c kvs =
      if kvs.all ConfigKV.isKnown then validateConfig (kvs.foldl setAttr c)
      else ((kvs.takeWhile ConfigKV.isKnown).foldl setAttr c,
        some ("Invalid configuration attribute")) := by
  induction kvs generalizing c with
  | nil => simp [updateConfig]
  | cons kv rest ih =>
    by_cases hk : kv.isKnown = true <;>
      simp [updateConfig, hk, ih, List.takeWhile]

/-- Helper: delivered records distribute over trace concatenation. -/
theorem acceptedConcat_append (a b : List Ev) :
    acceptedConcat (a ++ b) = acceptedConcat a ++ acceptedConcat b := by
  simp [acceptedConcat]

/-- Helper: posted batches distribute over trace concatenation. -/
theorem postedBatches_append (a b : List Ev) :
    postedBatches (a ++ b) = postedBatches a ++ postedBatches b := by
  simp [postedBatches]

/-- Helper: invariant of one _send_batch call chain — the records
delivered during the call followed by the remaining queue reconstruct
the original queue exactly (deliveries consume the head, in order, and
nothing is reordered or invented). -/
theorem sendBatchF_queue_inv (cfg : SinkCfg) (oracle : Nat → HttpResp) (now : Nat) :
    ∀ (fuel retries : Nat) (st : SinkState),
      acceptedConcat (sendBatchF cfg oracle now fuel retries st).trace ++
        (sendBatchF cfg oracle now fuel retries st).st.queue = st.queue := by
  intro fuel
  induction fuel with
  | zero =>
    intro retries st
    simp [sendBatchF, acceptedConcat]
  | succ fuel ih =>
    intro retries st
    by_cases hq : st.queue = []
    · simp [sendBatchF, hq, acceptedConcat]
    · by_cases hs : st.session = true <;>
      · rcases horacle : oracle retries with ⟨code, ra⟩ | _
        · by_cases h1 : code = 429
          · by_cases h2 : retries < cfg.maxRetries <;>
              simp [sendBatchF, hq, hs, horacle, h1, h2, acceptedConcat,
                acceptedConcat_append] <;>
              exact ih _ _
          · by_cases h3 : code = 502 ∨ code = 503 ∨ code = 504
            · by_cases h2 : retries < cfg.maxRetries <;>
                simp [sendBatchF, hq, hs, horacle, h1, h2, h3, acceptedConcat,
                  acceptedConcat_append] <;>
                exact ih _ _
            · by_cases h4 : code = 204
              · simp [sendBatchF, hq, hs, horacle, h1, h3, h4, acceptedConcat,
                  acceptedConcat_append]
              · by_cases h2 : retries < cfg.maxRetries <;>
                  simp [sendBatchF, hq, hs, horacle, h1, h2, h3, h4, acceptedConcat,
                    acceptedConcat_append] <;>
                  exact ih _ _
        · by_cases h2 : retries < cfg.maxRetries <;>
            simp [sendBatchF, hq, hs, horacle, h2, acceptedConcat,
              acceptedConcat_append] <;>
            exact ih _ _

/-- Helper: _send_batch never changes the _running flag. -/
theorem sendBatchF_running_inv (cfg : SinkCfg) (oracle : Nat → HttpResp) (now : Nat) :
    ∀ (fuel retries : Nat) (st : SinkState),
      (sendBatchF cfg oracle now fuel retries st).st.running = st.running := by
  intro fuel
  induction fuel with
  | zero =>
    intro retries st
    simp [sendBatchF]
  | succ fuel ih =>
    intro retries st
    by_cases hq : st.queue = []
    · simp [sendBatchF, hq]
    · by_cases hs : st.session = true <;>
      · rcases horacle : oracle retries with ⟨code, ra⟩ | _
        · by_cases h1 : code = 429
          · by_cases h2 : retries < cfg.maxRetries <;>
              simp [sendBatchF, hq, hs, horacle, h1, h2, ih]
          · by_cases h3 : code = 502 ∨ code = 503 ∨ code = 504
            · by_cases h2 : retries < cfg.maxRetries <;>
                simp [sendBatchF, hq, hs, horacle, h1, h2, h3, ih]
            · by_cases h4 : code = 204
              · simp [sendBatchF, hq, hs, horacle, h1, h3, h4]
              · by_cases h2 : retries < cfg.maxRetries <;>
                  simp [sendBatchF, hq, hs, horacle, h1, h2, h3, h4, ih]
        · by_cases h2 : retries < cfg.maxRetries <;>
            simp [sendBatchF, hq, hs, horacle, h2, ih]

/-- Helper: every batch posted during one _send_batch call chain —
including every retry resend — is the same 10-record head of the queue
as it stood when the call began. -/
theorem sendBatchF_posted_inv (cfg : SinkCfg) (oracle : Nat → HttpResp) (now : Nat) :
    ∀ (fuel retries : Nat) (st : SinkState),
      ∀ b ∈ postedBatches (sendBatchF cfg oracle now fuel retries st).trace,
        b = st.queue.take 10 := by
  intro fuel
  induction fuel with
  | zero =>
    intro retries st b hb
    simp [sendBatchF, postedBatches] at hb
  | succ fuel ih =>
    intro retries st b hb
    by_cases hq : st.queue = []
    · simp [sendBatchF, hq, postedBatches] at hb
    · by_cases hs : st.session = true <;>
      · rcases horacle : oracle retries with ⟨code, ra⟩ | _
        · by_cases h1 : code = 429
          · by_cases h2 : retries < cfg.maxRetries
            · simp [sendBatchF, hq, hs, horacle, h1, h2, postedBatches,
                postedBatches_append] at hb
              rcases hb with rfl | hb
              · rfl
              · first
                  | exact ih (retries + 1) st b (by simpa [postedBatches] using hb)
                  | exact ih (retries + 1)
                      ⟨st.queue, st.running, true, st.workerStarted, st.lastBatchTime⟩ b
                      (by simpa [postedBatches] using hb)
                  | exact ih (retries + 1)
                      ⟨st.queue, st.running, false, st.workerStarted, st.lastBatchTime⟩ b
                      (by simpa [postedBatches] using hb)
            · simp [sendBatchF, hq, hs, horacle, h1, h2, postedBatches,
                postedBatches_append] at hb
              exact hb
          · by_cases h3 : code = 502 ∨ code = 503 ∨ code = 504
            · by_cases h2 : retries < cfg.maxRetries
              · simp [sendBatchF, hq, hs, horacle, h1, h2, h3, postedBatches,
                  postedBatches_append] at hb
                rcases hb with rfl | hb
                · rfl
                · first
                    | exact ih (retries + 1) st b (by simpa [postedBatches] using hb)
                    | exact ih (retries + 1)
                        ⟨st.queue, st.running, true, st.workerStarted, st.lastBatchTime⟩ b
                        (by simpa [postedBatches] using hb)
                    | exact ih (retries + 1)
                        ⟨st.queue, st.running, false, st.workerStarted, st.lastBatchTime⟩ b
                        (by simpa [postedBatches] using hb)
              · simp [sendBatchF, hq, hs, horacle, h1, h2, h3, postedBatches,
                  postedBatches_append] at hb
                exact hb
            · by_cases h4 : code = 204
              · simp [sendBatchF, hq, hs, horacle, h1, h3, h4, postedBatches,
                  postedBatches_append] at hb
                exact hb
              · by_cases h2 : retries < cfg.maxRetries
                · simp [sendBatchF, hq, hs, horacle, h1, h2, h3, h4, postedBatches,
                    postedBatches_append] at hb
                  rcases hb with rfl | hb
                  · rfl
                  · first
                      | exact ih (retries + 1) st b (by simpa [postedBatches] using hb)
                      | exact ih (retries + 1)
                          ⟨st.queue, st.running, true, st.workerStarted, st.lastBatchTime⟩ b
                          (by simpa [postedBatches] using hb)
                      | exact ih (retries + 1)
                          ⟨st.queue, st.running, false, st.workerStarted, st.lastBatchTime⟩ b
                          (by simpa [postedBatches] using hb)
                · simp [sendBatchF, hq, hs, horacle, h1, h2, h3, h4, postedBatches,
                    postedBatches_append] at hb
                  exact hb
        · by_cases h2 : retries < cfg.maxRetries
          · simp [sendBatchF, hq, hs, horacle, h2, postedBatches,
              postedBatches_append] at hb
            rcases hb with rfl | hb
            · rfl
            · first
                | exact ih (retries + 1) st b (by simpa [postedBatches] using hb)
                | exact ih (retries + 1)
                    ⟨st.queue, st.running, true, st.workerStarted, st.lastBatchTime⟩ b
                    (by simpa [postedBatches] using hb)
                | exact ih (retries + 1)
                    ⟨st.queue, st.running, false, st.workerStarted, st.lastBatchTime⟩ b
                    (by simpa [postedBatches] using hb)
          · simp [sendBatchF, hq, hs, horacle, h2, postedBatches,
              postedBatches_append] at hb
            exact hb

/-- Helper: the queue-reconstruction invariant for the _send_batch
wrapper. -/
theorem sendBatch_queue_inv (cfg : SinkCfg) (oracle : Nat → HttpResp)
    (now retries : Nat) (st : SinkState) :
    acceptedConcat (sendBatch cfg oracle now retries st).trace ++
      (sendBatch cfg oracle now retries st).st.queue = st.queue :=
  sendBatchF_queue_inv cfg oracle now (cfg.maxRetries + 1) retries st

/-- Helper: the _running flag is preserved by the _send_batch wrapper. -/
theorem sendBatch_running_inv (cfg : SinkCfg) (oracle : Nat → HttpResp)
    (now retries : Nat) (st : SinkState) :
    (sendBatch cfg oracle now retries st).st.running = st.running :=
  sendBatchF_running_inv cfg oracle now (cfg.maxRetries + 1) retries st

/-- Helper: over any interleaving of enqueues and flush cycles starting
from a running sink, the records delivered so far followed by the final
queue reconstruct the starting queue followed by the enqueued records
in call order. -/
theorem runSteps_fifo_aux (cfg : SinkCfg) :
    ∀ (evs : List RunEv) (st : SinkState), st.running = true →
      acceptedConcat (runSteps cfg st evs).2 ++ (runSteps cfg st evs).1.queue =
        st.queue ++ enqueuedEmbeds evs := by
  intro evs
  induction evs with
  | nil =>
    intro st h
    simp [runSteps, enqueuedEmbeds, acceptedConcat]
  | cons ev rest ih =>
    intro st h
    cases ev with
    | enq level message =>
      have hrun : (syncLog st level message).running = true := by simp [syncLog, h]
      have hq : (syncLog st level message).queue = st.queue ++ [createEmbed level message] := by
        simp [syncLog, h]
      have hih := ih (syncLog st level message) hrun
      simp only [runSteps, enqueuedEmbeds]
      rw [hih, hq]
      simp
    | flushCycle oracle now =>
      have h1 := sendBatch_queue_inv cfg oracle now 0 st
      have h2 : (sendBatch cfg oracle now 0 st).st.running = true := by
        rw [sendBatch_running_inv cfg oracle now 0 st, h]
      have h3 := ih (sendBatch cfg oracle now 0 st).st h2
      simp only [runSteps, enqueuedEmbeds]
      rw [acceptedConcat_append, List.append_assoc, h3, ← List.append_assoc, h1]

/-- C8: FIFO delivery of the webhook queue.  First conjunct: over every
interleaving of log-call enqueues and flush cycles from a freshly
started sink, the records delivered (accepted by the endpoint) followed
by the records still queued equal the enqueued records in call order —
records are consumed from the head only and never reordered.  Second
conjunct: within any single delivery attempt chain, every posted batch
— including each retry resend — is exactly the 10-record head of the
queue at the start of the call, so no send ever skips ahead of an
earlier-enqueued record. -/
theorem webhook_fifo_order (cfg : SinkCfg) (evs : List RunEv)
    (oracle : Nat → HttpResp) (now retries : Nat) (st : SinkState) :
    acceptedConcat (runSteps cfg startedSinkState evs).2 ++
      (runSteps cfg startedSinkState evs).1.queue = enqueuedEmbeds evs ∧
    (postedBatches (sendBatch cfg oracle now retries st).trace).all
      (fun b => b == st.queue.take 10) = true := by
  constructor
  · have h := runSteps_fifo_aux cfg evs startedSinkState rfl
    simpa [startedSinkState] using h
  · rw [List.all_eq_true]
    intro b hb
    have := sendBatchF_posted_inv cfg oracle now (cfg.maxRetries + 1) retries st b hb
    simp [this]

end CwRpa
